import Mathlib

/-!
Shallow embedding of the Livepeer inference adapter from `src/index.ts`
(repository `elizav2-livepeer`).

The adapter consists of:
  * `callLivepeerLLM` — builds a chat-completion request from environment /
    runtime configuration and a prompt, sends it to `<endpoint>/llm`, and
    normalises the response (lines 32–132 of the source);
  * two text-generation handlers (`TEXT_SMALL`, `TEXT_LARGE`, lines 171–190)
    that resolve `maxTokens` / `temperature` before delegating;
  * a placeholder embedding handler (`TEXT_EMBEDDING`, lines 191–211).

Modelling conventions:
  * JavaScript strings that may be `undefined` are `Option String`; an
    environment variable that is unset is `none`, one set to a value `s`
    (possibly the empty string) is `some s`.  JavaScript truthiness on such a
    value (`x ? … : …`, `x || y`, `!x`) is `strTruthy`.
  * The numeric environment variables `LIVEPEER_MAX_TOKENS` /
    `LIVEPEER_TEMPERATURE` are modelled by their parsed numeric value
    (`Option Int` / `Option ℚ`): `none` when the variable is unset or set to
    the empty string (both falsy for the source's `process.env.X ? parse : d`
    guards), `some v` when it is set to a non-empty numeric string parsing
    to `v`.
  * JavaScript numbers are modelled exactly, as `Int` (`parseInt` results)
    and `ℚ` (`parseFloat` results and the embedding arithmetic); every
    arithmetic operation performed by the adapter is mirrored one-for-one,
    so each modelled value is the exact rational whose IEEE-754 rounding the
    JavaScript engine stores.
  * `fetch` is modelled by an explicit oracle `respond : FetchRequest →
    HTTPResponse`; the JSON body of the response is abstracted to the two
    optionally-present fields the source reads
    (`choices[0].message.content`, `choices[0].delta.content`).
  * Each distinct `throw` site of the source becomes a constructor of
    `GenError`; `GenError.message` reproduces the thrown `Error` message.
-/

namespace ElizaLivepeer

/-- JavaScript truthiness of a possibly-undefined string: `undefined` and
`""` are falsy, every other string is truthy. -/
def strTruthy : Option String → Bool
  | none => false
  | some s => !s.isEmpty

/-- JavaScript `a || b` on possibly-undefined strings. -/
def orStr (a b : Option String) : Option String :=
  if strTruthy a then a else b

/-- JavaScript `a || d` where `d` is a (defined) string default. -/
def orStrD (a : Option String) (d : String) : String :=
  match a with
  | some s => if s.isEmpty then d else s
  | none => d

/-- JavaScript `a || d` on numbers (`Int`): `undefined` and `0` are falsy. -/
def orIntD (a : Option Int) (d : Int) : Int :=
  match a with
  | some v => if v = 0 then d else v
  | none => d

/-- JavaScript `a || d` on numbers (`ℚ`): `undefined` and `0` are falsy. -/
def orRatD (a : Option ℚ) (d : ℚ) : ℚ :=
  match a with
  | some v => if v = 0 then d else v
  | none => d

/-- The `process.env` configuration the adapter reads (all optional).
`maxTokensEnv` / `temperatureEnv` hold the parsed numeric value of
`LIVEPEER_MAX_TOKENS` / `LIVEPEER_TEMPERATURE` (see module docstring). -/
structure Env where
  gatewayUrl : Option String
  apiKey : Option String
  model : Option String
  largeModel : Option String
  maxTokensEnv : Option Int
  temperatureEnv : Option ℚ
deriving DecidableEq

/-- The runtime collaborator surface the adapter touches: two
`runtime.getSetting` keys and `runtime.character.system`. -/
structure RuntimeCtx where
  settingGatewayUrl : Option String
  settingApiKey : Option String
  characterSystem : Option String
deriving DecidableEq

/-- Arguments of `callLivepeerLLM` (and of the two text handlers):
`none` models an omitted (`undefined`) argument.  The source also declares
an optional `model` argument that its body never reads; it is omitted. -/
structure GenTextParams where
  prompt : String
  maxTokens : Option Int
  temperature : Option ℚ
deriving DecidableEq

/-- One entry of `requestBody.messages` (source lines 67–78). -/
structure ChatMessage where
  role : String
  content : String
deriving DecidableEq

/-- `requestBody` (source lines 65–82). -/
structure RequestBody where
  model : String
  messages : List ChatMessage
  max_tokens : Int
  temperature : ℚ
  stream : Bool
deriving DecidableEq

/-- The outbound HTTP request of source lines 86–96: URL, method, the three
headers, and the JSON body. -/
structure FetchRequest where
  url : String
  method : String
  accept : String
  contentType : String
  authorization : String
  body : RequestBody
deriving DecidableEq

/-- The parts of the HTTP response the source reads: status, body-as-text,
and the two optionally-present content fields of the parsed JSON
(`choices[0].message.content`, `choices[0].delta.content`). -/
structure HTTPResponse where
  status : Nat
  bodyText : String
  messageContent : Option String
  deltaContent : Option String
deriving DecidableEq

/-- `res.ok` of the Fetch API: status in the inclusive range 200–299. -/
def HTTPResponse.isOk (r : HTTPResponse) : Bool :=
  200 ≤ r.status && r.status < 300

/-- One constructor per distinct `throw` site of `callLivepeerLLM`. -/
inductive GenError where
  | gatewayNotDefined
  | requestFailed (status : Nat) (bodyText : String)
  | invalidResponseFormat
deriving DecidableEq

/-- The `Error` message thrown at each site (source lines 46, 106, 127). -/
def GenError.message : GenError → String
  | .gatewayNotDefined => "Livepeer Gateway URL is not defined (LIVEPEER_GATEWAY_URL)"
  | .requestFailed s t => "Livepeer request failed (" ++ toString s ++ "): " ++ t
  | .invalidResponseFormat => "Invalid response format from Livepeer"

/-- Endpoint resolution (source lines 42–43):
`process.env.LIVEPEER_GATEWAY_URL || runtime.getSetting('LIVEPEER_GATEWAY_URL')`. -/
def resolveEndpoint (env : Env) (rt : RuntimeCtx) : Option String :=
  orStr env.gatewayUrl rt.settingGatewayUrl

/-- Model resolution (source lines 51–54):
`process.env.LIVEPEER_LARGE_MODEL || process.env.LIVEPEER_MODEL || 'meta-llama/Meta-Llama-3.1-8B-Instruct'`. -/
def resolveModel (env : Env) : String :=
  orStrD env.largeModel (orStrD env.model "meta-llama/Meta-Llama-3.1-8B-Instruct")

/-- System-prompt resolution (source lines 71–72):
`runtime.character.system || 'You are a helpful assistant powered by Livepeer Gateway'`. -/
def resolveSystemPrompt (rt : RuntimeCtx) : String :=
  orStrD rt.characterSystem "You are a helpful assistant powered by Livepeer Gateway"

/-- API-token resolution inside the Authorization header (source line 93):
`process.env.LIVEPEER_API_KEY || runtime.getSetting('LIVEPEER_API_KEY') || 'ElizaV2-llm-default'`. -/
def resolveApiToken (env : Env) (rt : RuntimeCtx) : String :=
  orStrD env.apiKey (orStrD rt.settingApiKey "ElizaV2-llm-default")

/-- `endpoint.replace(/\/$/, '')` (source line 86): the anchored regex can
match only a final slash, and a non-global `replace` removes at most one
occurrence, so exactly one trailing slash is stripped when present. -/
def stripTrailingSlash (s : String) : String :=
  if s.data.getLast? = some (Char.ofNat 47) then String.mk s.data.dropLast else s

/-- The request URL (source line 86). -/
def llmUrl (endpoint : String) : String :=
  stripTrailingSlash endpoint ++ "/llm"

/-- `maxTokens` destructuring default of `callLivepeerLLM` (source line 36):
applies only when the argument is `undefined`. -/
def resolveCallMaxTokens (env : Env) : Option Int → Int
  | some v => v
  | none => env.maxTokensEnv.getD 2048

/-- `temperature` destructuring default of `callLivepeerLLM` (source line 37). -/
def resolveCallTemperature (env : Env) : Option ℚ → ℚ
  | some v => v
  | none => env.temperatureEnv.getD 0.6

/-- The request body built at source lines 65–82. -/
def buildRequestBody (env : Env) (rt : RuntimeCtx) (prompt : String)
    (maxTokens : Int) (temperature : ℚ) : RequestBody :=
  { model := resolveModel env
    messages := [
      { role := "system", content := resolveSystemPrompt rt },
      { role := "user", content := prompt }]
    max_tokens := maxTokens
    temperature := temperature
    stream := false }

/-- The full `fetch` call of source lines 86–96. -/
def buildFetchRequest (env : Env) (rt : RuntimeCtx) (endpoint prompt : String)
    (maxTokens : Int) (temperature : ℚ) : FetchRequest :=
  { url := llmUrl endpoint
    method := "POST"
    accept := "application/json"
    contentType := "application/json"
    authorization := "Bearer " ++ resolveApiToken env rt
    body := buildRequestBody env rt prompt maxTokens temperature }

/-- The request-construction phase of `callLivepeerLLM` (source lines
42–96): everything before the network send.  Evaluates to `.error` exactly
when the endpoint guard at lines 45–47 throws. -/
def buildLLMRequest (env : Env) (rt : RuntimeCtx) (p : GenTextParams) :
    Except GenError FetchRequest :=
  let endpoint := resolveEndpoint env rt
  if !strTruthy endpoint then .error .gatewayNotDefined
  else .ok (buildFetchRequest env rt (endpoint.getD "") p.prompt
    (resolveCallMaxTokens env p.maxTokens) (resolveCallTemperature env p.temperature))

/-- Content extraction of source lines 116–128: read
`choices[0].message.content`; when that is falsy and
`choices[0].delta.content` is truthy, fall back to it; a final falsy value
is the invalid-format error (`none` here). -/
def extractContent (message delta : Option String) : Option String :=
  let content := message
  let content := if !strTruthy content && strTruthy delta then delta else content
  if strTruthy content then content else none

/-- The prefix-artifact marker of source line 131. -/
def assistantMarker : String :=
  "<|start_header_id|>assistant<|end_header_id|>\n\n"

/-- `s.replace(pat, '')` for a non-global literal pattern: remove the first
(leftmost) occurrence of `pat`, leave the string unchanged when `pat` does
not occur.  (Source line 131 uses a regex that is a literal string with the
two `|` characters escaped.) -/
def removeFirstOcc (pat : List Char) : List Char → List Char
  | [] => []
  | c :: rest =>
    if pat.isPrefixOf (c :: rest) then (c :: rest).drop pat.length
    else c :: removeFirstOcc pat rest

/-- String version of `removeFirstOcc`. -/
def removeFirstOccStr (pat s : String) : String :=
  ⟨removeFirstOcc pat.data s.data⟩

/-- Whether `pat` occurs as a contiguous run anywhere in the list. -/
def occursIn (pat : List Char) : List Char → Bool
  | [] => pat.isEmpty
  | c :: rest => pat.isPrefixOf (c :: rest) || occursIn pat rest

/-- String version of `occursIn`. -/
def occursInStr (pat s : String) : Bool :=
  occursIn pat.data s.data

/-- The response-handling phase of `callLivepeerLLM` (source lines
98–131): non-success status → `requestFailed` with status and body text;
otherwise extract content, failing with `invalidResponseFormat` when both
fields are falsy; finally remove the marker artifact. -/
def handleResponse (r : HTTPResponse) : Except GenError String :=
  if !r.isOk then .error (.requestFailed r.status r.bodyText)
  else match extractContent r.messageContent r.deltaContent with
    | some c => .ok (removeFirstOccStr assistantMarker c)
    | none => .error .invalidResponseFormat

/-- `callLivepeerLLM` (source lines 32–132), with the network modelled by
the oracle `respond`. -/
def callLivepeerLLM (env : Env) (rt : RuntimeCtx) (p : GenTextParams)
    (respond : FetchRequest → HTTPResponse) : Except GenError String :=
  match buildLLMRequest env rt p with
  | .error e => .error e
  | .ok req => handleResponse (respond req)

/-- `maxTokens` resolution of the `TEXT_SMALL` handler (source line 177):
`maxTokens || (process.env.LIVEPEER_MAX_TOKENS ? parseInt(…) : 512)`. -/
def smallMaxTokens (env : Env) (arg : Option Int) : Int :=
  orIntD arg (env.maxTokensEnv.getD 512)

/-- `maxTokens` resolution of the `TEXT_LARGE` handler (source line 187). -/
def largeMaxTokens (env : Env) (arg : Option Int) : Int :=
  orIntD arg (env.maxTokensEnv.getD 2048)

/-- `temperature` resolution shared verbatim by both handlers (source
lines 178 and 188). -/
def handlerTemperature (env : Env) (arg : Option ℚ) : ℚ :=
  orRatD arg (env.temperatureEnv.getD 0.6)

/-- The request the `TEXT_SMALL` handler causes `callLivepeerLLM` to build
(source lines 171–180). -/
def textSmallRequest (env : Env) (rt : RuntimeCtx) (p : GenTextParams) :
    Except GenError FetchRequest :=
  buildLLMRequest env rt
    { prompt := p.prompt
      maxTokens := some (smallMaxTokens env p.maxTokens)
      temperature := some (handlerTemperature env p.temperature) }

/-- The request the `TEXT_LARGE` handler causes `callLivepeerLLM` to build
(source lines 181–190). -/
def textLargeRequest (env : Env) (rt : RuntimeCtx) (p : GenTextParams) :
    Except GenError FetchRequest :=
  buildLLMRequest env rt
    { prompt := p.prompt
      maxTokens := some (largeMaxTokens env p.maxTokens)
      temperature := some (handlerTemperature env p.temperature) }

/-- The `TEXT_SMALL` handler (source lines 171–180). -/
def textSmallHandler (env : Env) (rt : RuntimeCtx) (p : GenTextParams)
    (respond : FetchRequest → HTTPResponse) : Except GenError String :=
  callLivepeerLLM env rt
    { prompt := p.prompt
      maxTokens := some (smallMaxTokens env p.maxTokens)
      temperature := some (handlerTemperature env p.temperature) } respond

/-- The `TEXT_LARGE` handler (source lines 181–190). -/
def textLargeHandler (env : Env) (rt : RuntimeCtx) (p : GenTextParams)
    (respond : FetchRequest → HTTPResponse) : Except GenError String :=
  callLivepeerLLM env rt
    { prompt := p.prompt
      maxTokens := some (largeMaxTokens env p.maxTokens)
      temperature := some (handlerTemperature env p.temperature) } respond

/-- Embedding dimension (source line 196). -/
def DIMS : Nat := 384

/-- The input shape of the `TEXT_EMBEDDING` handler
(`TextEmbeddingParams | string | null`, source lines 191–193): `null`, a
string, an object without a `text` field, or an object whose `text` field
holds a string or `null` / `undefined` (collapsed to `none`). -/
inductive EmbedInput where
  | nullInput
  | strInput (s : String)
  | objNoText
  | objText (t : Option String)
deriving DecidableEq

/-- The character set removed by JavaScript `String.prototype.trim`: the
WhiteSpace production (tab, VT, FF, space, NBSP, ZWNBSP, the Zs category)
and the LineTerminator production (LF, CR, LS, PS). -/
def jsWhitespaceChar (c : Char) : Bool :=
  List.contains [9, 10, 11, 12, 13, 32, 160, 0x1680,
    0x2000, 0x2001, 0x2002, 0x2003, 0x2004, 0x2005, 0x2006, 0x2007,
    0x2008, 0x2009, 0x200A, 0x2028, 0x2029, 0x202F, 0x205F, 0x3000,
    0xFEFF] c.toNat

/-- `!text.trim()`: the string trims to the empty string, i.e. every
character is JavaScript whitespace (vacuously so for the empty string). -/
def jsTrimEmpty (s : String) : Bool :=
  s.data.all jsWhitespaceChar

/-- The UTF-16 code units of one character: JavaScript `charCodeAt` reads
code units, so an astral code point contributes a surrogate pair. -/
def charToUtf16 (c : Char) : List Nat :=
  if c.toNat < 0x10000 then [c.toNat]
  else [0xD800 + (c.toNat - 0x10000) / 0x400, 0xDC00 + (c.toNat - 0x10000) % 0x400]

/-- The UTF-16 code-unit sequence of a string: JavaScript `text.length` is
its length and `text.charCodeAt(i)` its `i`-th entry. -/
def utf16Units (s : String) : List Nat :=
  s.data.flatMap charToUtf16

/-- `new Array(DIMS).fill(0)` (source lines 198, 202, 204). -/
def zeroVec : List ℚ := List.replicate DIMS 0

/-- One loop iteration (source lines 206–207):
`vec[i % DIMS] += text.charCodeAt(i) / 65535`. -/
def accumUnit (vec : List ℚ) (i : Nat) (u : Nat) : List ℚ :=
  vec.set (i % DIMS) (vec.getD (i % DIMS) 0 + (u : ℚ) / 65535)

/-- The accumulation loop of source lines 205–208, starting at position
`i` with the remaining code units. -/
def embedLoop : List ℚ → Nat → List Nat → List ℚ
  | vec, _, [] => vec
  | vec, i, u :: us => embedLoop (accumUnit vec i u) (i + 1) us

/-- The `TEXT_EMBEDDING` handler (source lines 191–211).  The first guard
(`!params || (typeof params === 'object' && !('text' in params))`) catches
`null`, the empty string (falsy), and objects without a `text` field; then
`text` is the string itself or `params.text ?? ''`, and a string that trims
to empty yields the zero vector; otherwise the loop accumulates. -/
def embed : EmbedInput → List ℚ
  | .nullInput => zeroVec
  | .objNoText => zeroVec
  | .strInput s =>
    if s.isEmpty then zeroVec
    else if jsTrimEmpty s then zeroVec
    else embedLoop zeroVec 0 (utf16Units s)
  | .objText t =>
    let text := t.getD ""
    if jsTrimEmpty text then zeroVec
    else embedLoop zeroVec 0 (utf16Units text)

/-- Closed-form value of one vector entry: the sum, over the code-unit
positions `k` that hash to bucket `j`, of `unit / 65535`. -/
def bucketTotal (units : List Nat) (j : Nat) : ℚ :=
  Finset.sum (Finset.range units.length)
    (fun k => if k % DIMS = j then (units.getD k 0 : ℚ) / 65535 else 0)

/-- Running form of `bucketTotal`: contribution to bucket `j` of a
code-unit suffix that starts at position `i`. -/
def bucketFrom (j : Nat) : Nat → List Nat → ℚ
  | _, [] => 0
  | i, u :: us => (if i % DIMS = j then (u : ℚ) / 65535 else 0) + bucketFrom j (i + 1) us

/- ------------------------------------------------------------------ -/
/- Helper lemmas                                                      -/
/- ------------------------------------------------------------------ -/

theorem isPrefixOf_append (l r : List Char) : l.isPrefixOf (l ++ r) = true := by
  induction l with
  | nil => simp
  | cons c tl ih => simp [List.isPrefixOf, ih]

theorem removeFirstOcc_append (pat rest : List Char) :
    removeFirstOcc pat (pat ++ rest) = rest := by
  cases hp : pat with
  | nil =>
    cases rest with
    | nil => rfl
    | cons c tl => simp [removeFirstOcc, List.isPrefixOf]
  | cons p ps =>
    show removeFirstOcc (p :: ps) (p :: (ps ++ rest)) = rest
    rw [removeFirstOcc]
    rw [show p :: (ps ++ rest) = (p :: ps) ++ rest from rfl]
    rw [isPrefixOf_append]
    simp [List.drop_left]

theorem removeFirstOcc_of_not_occurs (pat s : List Char)
    (h : occursIn pat s = false) : removeFirstOcc pat s = s := by
  induction s with
  | nil => rfl
  | cons c tl ih =>
    rw [occursIn] at h
    simp only [Bool.or_eq_false_iff] at h
    rw [removeFirstOcc, h.1]
    simp [ih h.2]

theorem handleResponse_ok_content (r : HTTPResponse) (c : String)
    (hok : r.isOk = true)
    (hc : extractContent r.messageContent r.deltaContent = some c) :
    handleResponse r = .ok (removeFirstOccStr assistantMarker c) := by
  rw [handleResponse, hok]
  simp [hc]

/- ------------------------------------------------------------------ -/
/- C1                                                                 -/
/- ------------------------------------------------------------------ -/

/-- C1 (counterexample): the claim says an extracted text in which the
marker does not occur at the start is returned unchanged; but for the text
`"Hi" ++ marker ++ "!"` — marker not at the start — `generate` returns
`"Hi!"`, the text with the mid-string marker occurrence removed. -/
theorem marker_strip_mid_occurrence :
    assistantMarker.data.isPrefixOf ("Hi" ++ assistantMarker ++ "!").data = false
    ∧ handleResponse ⟨200, "", some ("Hi" ++ assistantMarker ++ "!"), none⟩ = .ok "Hi!"
    ∧ ("Hi!" : String) ≠ "Hi" ++ assistantMarker ++ "!" :=
  ⟨by decide, rfl, by decide⟩

/-- C1 (amended): `generate` removes the first occurrence of the marker
wherever it occurs in the extracted text: a text beginning with the marker
loses that leading marker, and a text in which the marker occurs nowhere is
returned unchanged. -/
theorem marker_strip (r : HTTPResponse) (c rest : String)
    (hok : r.isOk = true)
    (hc : extractContent r.messageContent r.deltaContent = some c) :
    (c = assistantMarker ++ rest → handleResponse r = .ok rest)
    ∧ (occursInStr assistantMarker c = false → handleResponse r = .ok c) := by
  constructor
  · intro hpre
    rw [handleResponse_ok_content r c hok hc, hpre]
    have : removeFirstOccStr assistantMarker (assistantMarker ++ rest) = rest := by
      show String.mk (removeFirstOcc assistantMarker.data (assistantMarker ++ rest).data) = rest
      rw [show (assistantMarker ++ rest).data = assistantMarker.data ++ rest.data from rfl]
      rw [removeFirstOcc_append]
    rw [this]
  · intro hno
    rw [handleResponse_ok_content r c hok hc]
    have : removeFirstOccStr assistantMarker c = c := by
      show String.mk (removeFirstOcc assistantMarker.data c.data) = c
      rw [removeFirstOcc_of_not_occurs _ _ hno]
    rw [this]

/-- C1 witness: a marker-prefixed extraction loses the marker; a
marker-free extraction is returned unchanged. -/
theorem marker_strip_ex :
    handleResponse ⟨200, "", some (assistantMarker ++ "Hello"), none⟩ = .ok "Hello"
    ∧ handleResponse ⟨200, "", some "plain", none⟩ = .ok "plain" := by
  constructor
  · exact (marker_strip ⟨200, "", some (assistantMarker ++ "Hello"), none⟩
      (assistantMarker ++ "Hello") "Hello" rfl rfl).1 rfl
  · exact (marker_strip ⟨200, "", some "plain", none⟩ "plain" "x" rfl rfl).2 (by decide)

/- ------------------------------------------------------------------ -/
/- C2                                                                 -/
/- ------------------------------------------------------------------ -/

/-- C2 (counterexample): the claim says an explicit argument always
overrides the environment; but with the temperature environment variable
set to `2` and the explicit argument `0` (a given, legitimate temperature),
the small profile resolves temperature `2`, not `0` — the `||` fallback
treats the zero argument as absent. -/
theorem params_resolution_zero_arg :
    (textSmallRequest ⟨some "g", none, none, none, none, some 2⟩ ⟨none, none, none⟩
        ⟨"p", some 7, some 0⟩).map (fun r => r.body.temperature) = .ok 2
    ∧ (2 : ℚ) ≠ 0 :=
  ⟨rfl, by decide⟩

/-- C2 (amended): a *nonzero* explicit maxTokens/temperature argument
overrides the environment variables and the hardcoded defaults (a zero
argument is treated as absent by the `||` fallback); with no explicit
argument, the environment value is used; with neither, maxTokens defaults
to 512 (small profile) and 2048 (large profile) and temperature to 0.6 in
both profiles. -/
theorem params_resolution (env : Env) (v n : Int) (t q : ℚ)
    (hv : v ≠ 0) (ht : t ≠ 0) :
    smallMaxTokens env (some v) = v
    ∧ largeMaxTokens env (some v) = v
    ∧ handlerTemperature env (some t) = t
    ∧ smallMaxTokens { env with maxTokensEnv := some n } none = n
    ∧ largeMaxTokens { env with maxTokensEnv := some n } none = n
    ∧ handlerTemperature { env with temperatureEnv := some q } none = q
    ∧ smallMaxTokens { env with maxTokensEnv := none } none = 512
    ∧ largeMaxTokens { env with maxTokensEnv := none } none = 2048
    ∧ handlerTemperature { env with temperatureEnv := none } none = 0.6 := by
  refine ⟨?_, ?_, ?_, rfl, rfl, rfl, rfl, rfl, rfl⟩
  · simp [smallMaxTokens, orIntD, hv]
  · simp [largeMaxTokens, orIntD, hv]
  · simp [handlerTemperature, orRatD, ht]

/-- C2 witness: concrete resolutions for explicit arguments 7 / 3,
environment values 9 / 2, and the unset case. -/
theorem params_resolution_ex :
    smallMaxTokens ⟨none, none, none, none, none, none⟩ (some 7) = 7
    ∧ largeMaxTokens ⟨none, none, none, none, none, none⟩ (some 7) = 7
    ∧ handlerTemperature ⟨none, none, none, none, none, none⟩ (some 3) = 3
    ∧ smallMaxTokens ⟨none, none, none, none, some 9, none⟩ none = 9
    ∧ largeMaxTokens ⟨none, none, none, none, some 9, none⟩ none = 9
    ∧ handlerTemperature ⟨none, none, none, none, none, some 2⟩ none = 2
    ∧ smallMaxTokens ⟨none, none, none, none, none, none⟩ none = 512
    ∧ largeMaxTokens ⟨none, none, none, none, none, none⟩ none = 2048
    ∧ handlerTemperature ⟨none, none, none, none, none, none⟩ none = 0.6 := by
  have h := params_resolution ⟨none, none, none, none, none, none⟩ 7 9 3 2
    (by decide) (by decide)
  exact ⟨h.1, h.2.1, h.2.2.1, h.2.2.2.1, h.2.2.2.2.1, h.2.2.2.2.2.1,
    h.2.2.2.2.2.2.1, h.2.2.2.2.2.2.2.1, h.2.2.2.2.2.2.2.2⟩

/- ------------------------------------------------------------------ -/
/- C3                                                                 -/
/- ------------------------------------------------------------------ -/

/-- C3: the gateway endpoint is resolved with precedence process
environment > runtime-supplied setting (`generate` accepts no explicit
endpoint argument, so the explicit source is unset in every call); when
the endpoint is unset (falsy) in every source, `generate` fails with the
configuration error before any request is built, for every possible
network behaviour. -/
theorem endpoint_resolution (env : Env) (rt : RuntimeCtx) (p : GenTextParams) :
    (strTruthy env.gatewayUrl = true → resolveEndpoint env rt = env.gatewayUrl)
    ∧ (strTruthy env.gatewayUrl = false → resolveEndpoint env rt = rt.settingGatewayUrl)
    ∧ (strTruthy env.gatewayUrl = false → strTruthy rt.settingGatewayUrl = false →
        buildLLMRequest env rt p = .error .gatewayNotDefined
        ∧ ∀ respond, callLivepeerLLM env rt p respond = .error .gatewayNotDefined) := by
  refine ⟨fun h => ?_, fun h => ?_, fun h h2 => ?_⟩
  · simp [resolveEndpoint, orStr, h]
  · simp [resolveEndpoint, orStr, h]
  · have hb : buildLLMRequest env rt p = .error .gatewayNotDefined := by
      rw [buildLLMRequest]
      simp [resolveEndpoint, orStr, h, h2]
    exact ⟨hb, fun respond => by rw [callLivepeerLLM, hb]⟩

/-- C3 witness: with the gateway URL unset in the environment and in the
runtime settings, the call fails with the configuration error even though
the network would answer 200. -/
theorem endpoint_resolution_ex :
    callLivepeerLLM ⟨none, none, none, none, none, none⟩ ⟨none, none, none⟩
      ⟨"hi", none, none⟩ (fun _ => ⟨200, "", some "ok", none⟩)
      = .error .gatewayNotDefined :=
  ((endpoint_resolution ⟨none, none, none, none, none, none⟩ ⟨none, none, none⟩
    ⟨"hi", none, none⟩).2.2 rfl rfl).2 _

/- ------------------------------------------------------------------ -/
/- C4                                                                 -/
/- ------------------------------------------------------------------ -/

theorem isEmpty_false_of_ne (s : String) (hs : s ≠ "") : s.isEmpty = false := by
  cases he : s.isEmpty
  · rfl
  · exact absurd ((String.isEmpty_iff s).mp he) hs

theorem strTruthy_some_of_ne (s : String) (hs : s ≠ "") :
    strTruthy (some s) = true := by
  simp [strTruthy, isEmpty_false_of_ne s hs]

/-- C4: on an HTTP-success response, `message.content` is extracted first
(when it is truthy, the result is taken from it whatever `delta.content`
holds); only when it is absent is `delta.content` used; when both are
absent the call fails with the invalid-response-format upstream error. -/
theorem content_priority (r : HTTPResponse) (s : String)
    (hok : r.isOk = true) (hs : s ≠ "") :
    (r.messageContent = none → r.deltaContent = some s →
      handleResponse r = .ok (removeFirstOccStr assistantMarker s))
    ∧ (r.messageContent = none → r.deltaContent = none →
      handleResponse r = .error .invalidResponseFormat)
    ∧ (strTruthy r.messageContent = true →
      handleResponse r = .ok (removeFirstOccStr assistantMarker (r.messageContent.getD ""))) := by
  refine ⟨fun h1 h2 => ?_, fun h1 h2 => ?_, fun h1 => ?_⟩
  · exact handleResponse_ok_content r s hok
      (by simp [extractContent, h1, h2, strTruthy, isEmpty_false_of_ne s hs])
  · rw [handleResponse, hok]
    simp [extractContent, h1, h2, strTruthy]
  · obtain ⟨c, hc⟩ : ∃ c, r.messageContent = some c := by
      cases hmc : r.messageContent with
      | none => rw [hmc] at h1; exact absurd h1 (by simp [strTruthy])
      | some c => exact ⟨c, rfl⟩
    rw [hc] at h1
    exact handleResponse_ok_content r (r.messageContent.getD "")
      (by simpa [hc] using hok) (by simp [extractContent, hc, h1])

/-- C4 witness: `message.content` absent and `delta.content = "X"` present
yields `"X"`; both absent yields the invalid-format error; a truthy
`message.content` wins over a present `delta.content`. -/
theorem content_priority_ex :
    handleResponse ⟨200, "", none, some "X"⟩ = .ok "X"
    ∧ handleResponse ⟨200, "", none, none⟩ = .error .invalidResponseFormat
    ∧ handleResponse ⟨200, "", some "M", some "D"⟩ = .ok "M" := by
  refine ⟨?_, ?_, ?_⟩
  · exact ((content_priority ⟨200, "", none, some "X"⟩ "X" rfl (by decide)).1 rfl rfl).trans
      (congrArg Except.ok (by decide))
  · exact (content_priority ⟨200, "", none, none⟩ "X" rfl (by decide)).2.1 rfl rfl
  · exact ((content_priority ⟨200, "", some "M", some "D"⟩ "M" rfl (by decide)).2.2
      (by decide)).trans (congrArg Except.ok (by decide))

/- ------------------------------------------------------------------ -/
/- C5                                                                 -/
/- ------------------------------------------------------------------ -/

/-- C5: every non-success HTTP status makes `generate` fail with the
upstream error that carries the numeric status and the body text (the
thrown `Error` message contains both verbatim); no value is returned. -/
theorem upstream_error_on_failure (env : Env) (rt : RuntimeCtx) (p : GenTextParams)
    (r : HTTPResponse)
    (hep : strTruthy (resolveEndpoint env rt) = true) (h : r.isOk = false) :
    callLivepeerLLM env rt p (fun _ => r) = .error (.requestFailed r.status r.bodyText)
    ∧ (∀ s, callLivepeerLLM env rt p (fun _ => r) ≠ .ok s)
    ∧ (GenError.requestFailed r.status r.bodyText).message
      = "Livepeer request failed (" ++ toString r.status ++ "): " ++ r.bodyText := by
  have hmain : callLivepeerLLM env rt p (fun _ => r)
      = .error (.requestFailed r.status r.bodyText) := by
    rw [callLivepeerLLM, buildLLMRequest]
    simp only [hep, Bool.not_true, Bool.false_eq_true, if_false]
    rw [handleResponse, h]
    rfl
  exact ⟨hmain, fun s hcontra => by rw [hmain] at hcontra; exact Except.noConfusion hcontra,
    rfl⟩

/-- C5 witness: a 500 response with body `"boom"` produces the upstream
error carrying 500 and `"boom"`, and its message spells both out. -/
theorem upstream_error_on_failure_ex :
    callLivepeerLLM ⟨some "http://gw", none, none, none, none, none⟩ ⟨none, none, none⟩
      ⟨"hi", none, none⟩ (fun _ => ⟨500, "boom", none, none⟩)
      = .error (.requestFailed 500 "boom")
    ∧ (GenError.requestFailed 500 "boom").message
      = "Livepeer request failed (500): boom" := by
  have h := upstream_error_on_failure ⟨some "http://gw", none, none, none, none, none⟩
    ⟨none, none, none⟩ ⟨"hi", none, none⟩ ⟨500, "boom", none, none⟩ rfl rfl
  exact ⟨h.1, h.2.2.trans (by decide)⟩

/- ------------------------------------------------------------------ -/
/- C9                                                                 -/
/- ------------------------------------------------------------------ -/

/-- C9: a present-but-empty `message.content` is treated as absent — the
extraction falls through to `delta.content`, and when that is absent or
empty as well, the call fails with the invalid-response-format upstream
error even though a content field was present. -/
theorem empty_content_fallback (r : HTTPResponse) (s : String)
    (hok : r.isOk = true) (hmsg : r.messageContent = some "") (hs : s ≠ "") :
    (r.deltaContent = some s →
      handleResponse r = .ok (removeFirstOccStr assistantMarker s))
    ∧ (r.deltaContent = none → handleResponse r = .error .invalidResponseFormat)
    ∧ (r.deltaContent = some "" → handleResponse r = .error .invalidResponseFormat) := by
  have h0 : "".isEmpty = true := rfl
  refine ⟨fun hd => ?_, fun hd => ?_, fun hd => ?_⟩
  · exact handleResponse_ok_content r s hok
      (by simp [extractContent, hmsg, hd, strTruthy, h0, isEmpty_false_of_ne s hs])
  · rw [handleResponse, hok]
    simp [extractContent, hmsg, hd, strTruthy, h0]
  · rw [handleResponse, hok]
    simp [extractContent, hmsg, hd, strTruthy, h0]

/-- C9 witness: `message.content = ""` with `delta.content = "X"` yields
`"X"`; with `delta.content = ""` it fails with the invalid-format error. -/
theorem empty_content_fallback_ex :
    handleResponse ⟨200, "", some "", some "X"⟩ = .ok "X"
    ∧ handleResponse ⟨200, "", some "", some ""⟩ = .error .invalidResponseFormat := by
  refine ⟨?_, ?_⟩
  · exact ((empty_content_fallback ⟨200, "", some "", some "X"⟩ "X" rfl rfl (by decide)).1
      rfl).trans (congrArg Except.ok (by decide))
  · exact (empty_content_fallback ⟨200, "", some "", some ""⟩ "X" rfl rfl (by decide)).2.2 rfl

/- ------------------------------------------------------------------ -/
/- C6                                                                 -/
/- ------------------------------------------------------------------ -/

theorem orStrD_truthy (a : Option String) (d : String) (h : strTruthy a = true) :
    orStrD a d = a.getD "" := by
  cases a with
  | none => simp [strTruthy] at h
  | some s =>
    have : s.isEmpty = false := by simpa [strTruthy] using h
    simp [orStrD, this]

theorem orStrD_falsy (a : Option String) (d : String) (h : strTruthy a = false) :
    orStrD a d = d := by
  cases a with
  | none => rfl
  | some s =>
    have : s.isEmpty = true := by simpa [strTruthy] using h
    simp [orStrD, this]

/-- C6: `embed(null)`, `embed("")` and `embed({})` all return the same
384-length all-zero vector, as does every input that lacks a usable text
field or whose text is empty or whitespace-only. -/
theorem embed_zero_cases (t : String) (o : Option String)
    (ht : jsTrimEmpty t = true) (ho : jsTrimEmpty (o.getD "") = true) :
    embed .nullInput = zeroVec
    ∧ embed (.strInput "") = zeroVec
    ∧ embed .objNoText = zeroVec
    ∧ embed (.strInput t) = zeroVec
    ∧ embed (.objText o) = zeroVec
    ∧ zeroVec.length = 384
    ∧ (∀ x ∈ zeroVec, x = 0) := by
  refine ⟨rfl, rfl, rfl, ?_, ?_, by rw [zeroVec, List.length_replicate]; rfl,
    fun x hx => List.eq_of_mem_replicate hx⟩
  · rw [embed]
    by_cases he : t.isEmpty = true
    · simp [he]
    · simp [he, ht]
  · rw [embed]
    simp [ho]

/-- C6 witness: the whitespace-only string and the object with an empty
text field both embed to the zero vector. -/
theorem embed_zero_cases_ex :
    embed (.strInput " ") = zeroVec ∧ embed (.objText (some "")) = zeroVec := by
  have h := embed_zero_cases " " (some "") (by decide) (by decide)
  exact ⟨h.2.2.2.1, h.2.2.2.2.1⟩

/- ------------------------------------------------------------------ -/
/- C8                                                                 -/
/- ------------------------------------------------------------------ -/

/-- C8: every request `generate` sends is a POST to the resolved endpoint
with one trailing slash stripped and `"/llm"` appended, with an
Authorization header of `"Bearer "` followed by the API key resolved from
the environment, then the runtime setting, then the literal fallback
token; and the network oracle is invoked exactly on that request. -/
theorem request_shape (env : Env) (rt : RuntimeCtx) (p : GenTextParams)
    (req : FetchRequest) (h : buildLLMRequest env rt p = .ok req) :
    req.method = "POST"
    ∧ req.url = stripTrailingSlash ((resolveEndpoint env rt).getD "") ++ "/llm"
    ∧ (strTruthy env.apiKey = true →
        req.authorization = "Bearer " ++ env.apiKey.getD "")
    ∧ (strTruthy env.apiKey = false → strTruthy rt.settingApiKey = true →
        req.authorization = "Bearer " ++ rt.settingApiKey.getD "")
    ∧ (strTruthy env.apiKey = false → strTruthy rt.settingApiKey = false →
        req.authorization = "Bearer ElizaV2-llm-default")
    ∧ (∀ respond, callLivepeerLLM env rt p respond = handleResponse (respond req)) := by
  rw [buildLLMRequest] at h
  by_cases hep : strTruthy (resolveEndpoint env rt) = true
  case neg =>
    rw [if_pos (by simp [Bool.not_eq_true'] at hep ⊢; exact hep)] at h
    exact absurd h (by simp)
  case pos =>
    rw [if_neg (by simp [hep])] at h
    have hreq : req = buildFetchRequest env rt ((resolveEndpoint env rt).getD "")
        p.prompt (resolveCallMaxTokens env p.maxTokens)
        (resolveCallTemperature env p.temperature) :=
      (Except.ok.inj h).symm
    subst hreq
    refine ⟨rfl, rfl, fun hk => ?_, fun hk hk2 => ?_, fun hk hk2 => ?_, fun respond => ?_⟩
    · show "Bearer " ++ resolveApiToken env rt = _
      rw [resolveApiToken, orStrD_truthy _ _ hk]
    · show "Bearer " ++ resolveApiToken env rt = _
      rw [resolveApiToken, orStrD_falsy _ _ hk, orStrD_truthy _ _ hk2]
    · show "Bearer " ++ resolveApiToken env rt = _
      rw [resolveApiToken, orStrD_falsy _ _ hk, orStrD_falsy _ _ hk2]
      decide
    · rw [callLivepeerLLM, buildLLMRequest, if_neg (by simp [hep])]

/-- C8 witness: with endpoint `"http://gw/"` and no API key configured
anywhere, the built request is a POST to `"http://gw/llm"` with the
literal fallback bearer token. -/
theorem request_shape_ex :
    (buildFetchRequest ⟨some "http://gw/", none, none, none, none, none⟩
        ⟨none, none, none⟩ "http://gw/" "hi" 5 1).method = "POST"
    ∧ (buildFetchRequest ⟨some "http://gw/", none, none, none, none, none⟩
        ⟨none, none, none⟩ "http://gw/" "hi" 5 1).url = "http://gw/llm"
    ∧ (buildFetchRequest ⟨some "http://gw/", none, none, none, none, none⟩
        ⟨none, none, none⟩ "http://gw/" "hi" 5 1).authorization
      = "Bearer ElizaV2-llm-default" := by
  have h := request_shape ⟨some "http://gw/", none, none, none, none, none⟩
    ⟨none, none, none⟩ ⟨"hi", some 5, some 1⟩
    (buildFetchRequest ⟨some "http://gw/", none, none, none, none, none⟩
      ⟨none, none, none⟩ "http://gw/" "hi" 5 1) rfl
  exact ⟨h.1, h.2.1.trans (by decide), h.2.2.2.2.1 rfl rfl⟩

/- ------------------------------------------------------------------ -/
/- C10                                                                -/
/- ------------------------------------------------------------------ -/

/-- C10: the small and large handlers build requests that agree on every
field except possibly `max_tokens`; both resolve the model by the
large-model environment override, then the model override, then the
hardcoded default (the small profile included); their `max_tokens` come
from the same `||` resolution and differ only in the hardcoded fallback
(512 versus 2048), so the requests coincide whenever the two resolutions
agree, and split into 512 / 2048 exactly when both the explicit argument
and the environment variable are absent. -/
theorem profiles_agree (env : Env) (rt : RuntimeCtx) (p : GenTextParams)
    (reqS reqL : FetchRequest)
    (hS : textSmallRequest env rt p = .ok reqS)
    (hL : textLargeRequest env rt p = .ok reqL) :
    reqS.url = reqL.url
    ∧ reqS.method = reqL.method
    ∧ reqS.authorization = reqL.authorization
    ∧ reqS.body.model = reqL.body.model
    ∧ (strTruthy env.largeModel = true → reqS.body.model = env.largeModel.getD "")
    ∧ (strTruthy env.largeModel = false → strTruthy env.model = true →
        reqS.body.model = env.model.getD "")
    ∧ (strTruthy env.largeModel = false → strTruthy env.model = false →
        reqS.body.model = "meta-llama/Meta-Llama-3.1-8B-Instruct")
    ∧ reqS.body.messages = reqL.body.messages
    ∧ reqS.body.temperature = reqL.body.temperature
    ∧ reqS.body.stream = reqL.body.stream
    ∧ reqS.body.max_tokens = smallMaxTokens env p.maxTokens
    ∧ reqL.body.max_tokens = largeMaxTokens env p.maxTokens
    ∧ (smallMaxTokens env p.maxTokens = largeMaxTokens env p.maxTokens → reqS = reqL)
    ∧ (p.maxTokens = none → env.maxTokensEnv = none →
        reqS.body.max_tokens = 512 ∧ reqL.body.max_tokens = 2048) := by
  rw [textSmallRequest, buildLLMRequest] at hS
  rw [textLargeRequest, buildLLMRequest] at hL
  by_cases hep : strTruthy (resolveEndpoint env rt) = true
  case neg =>
    rw [if_pos (by simp [Bool.not_eq_true'] at hep ⊢; exact hep)] at hS
    exact absurd hS (by simp)
  case pos =>
    rw [if_neg (by simp [hep])] at hS
    rw [if_neg (by simp [hep])] at hL
    have hreqS : reqS = buildFetchRequest env rt ((resolveEndpoint env rt).getD "")
        p.prompt (smallMaxTokens env p.maxTokens) (handlerTemperature env p.temperature) :=
      (Except.ok.inj hS).symm
    have hreqL : reqL = buildFetchRequest env rt ((resolveEndpoint env rt).getD "")
        p.prompt (largeMaxTokens env p.maxTokens) (handlerTemperature env p.temperature) :=
      (Except.ok.inj hL).symm
    subst hreqS
    subst hreqL
    refine ⟨rfl, rfl, rfl, rfl, fun hm => ?_, fun hm hm2 => ?_, fun hm hm2 => ?_,
      rfl, rfl, rfl, rfl, rfl, fun heq => ?_, fun ha he => ?_⟩
    · show resolveModel env = _
      rw [resolveModel, orStrD_truthy _ _ hm]
    · show resolveModel env = _
      rw [resolveModel, orStrD_falsy _ _ hm, orStrD_truthy _ _ hm2]
    · show resolveModel env = _
      rw [resolveModel, orStrD_falsy _ _ hm, orStrD_falsy _ _ hm2]
    · rw [buildFetchRequest, buildFetchRequest, heq]
    · rw [show smallMaxTokens env p.maxTokens = 512 by
        rw [smallMaxTokens, ha, he]; rfl]
      rw [show largeMaxTokens env p.maxTokens = 2048 by
        rw [largeMaxTokens, ha, he]; rfl]
      exact ⟨rfl, rfl⟩

/-- C10 witness: with an explicit nonzero `maxTokens` argument the two
handlers build the very same request, and the shared model default is the
hardcoded identifier. -/
theorem profiles_agree_ex :
    (buildFetchRequest ⟨some "g", none, none, none, none, none⟩ ⟨none, none, none⟩
        "g" "p" 7 1).body.model = "meta-llama/Meta-Llama-3.1-8B-Instruct"
    ∧ (buildFetchRequest ⟨some "g", none, none, none, none, none⟩ ⟨none, none, none⟩
        "g" "p" 7 1).body.max_tokens = smallMaxTokens ⟨some "g", none, none, none, none, none⟩ (some 7)
    ∧ (buildFetchRequest ⟨some "g", none, none, none, none, none⟩ ⟨none, none, none⟩
        "g" "p" 7 1).body.max_tokens = largeMaxTokens ⟨some "g", none, none, none, none, none⟩ (some 7) := by
  have h := profiles_agree ⟨some "g", none, none, none, none, none⟩ ⟨none, none, none⟩
    ⟨"p", some 7, some 1⟩
    (buildFetchRequest ⟨some "g", none, none, none, none, none⟩ ⟨none, none, none⟩ "g" "p" 7 1)
    (buildFetchRequest ⟨some "g", none, none, none, none, none⟩ ⟨none, none, none⟩ "g" "p" 7 1)
    rfl rfl
  exact ⟨h.2.2.2.2.2.2.1 rfl rfl, h.2.2.2.2.2.2.2.2.2.2.1, h.2.2.2.2.2.2.2.2.2.2.2.1⟩

/- ------------------------------------------------------------------ -/
/- C7                                                                 -/
/- ------------------------------------------------------------------ -/

theorem length_embedLoop (us : List Nat) (vec : List ℚ) (i : Nat) :
    (embedLoop vec i us).length = vec.length := by
  induction us generalizing vec i with
  | nil => rfl
  | cons u tl ih => rw [embedLoop, ih, accumUnit, List.length_set]

theorem getD_accumUnit (vec : List ℚ) (i j u : Nat) (hj : j < vec.length) :
    (accumUnit vec i u).getD j 0
      = vec.getD j 0 + (if i % DIMS = j then (u : ℚ) / 65535 else 0) := by
  rw [accumUnit]
  by_cases hij : i % DIMS = j
  · rw [if_pos hij, hij]
    rw [List.getD_eq_getElem?_getD, List.getElem?_set_self hj]
    rw [List.getD_eq_getElem?_getD]
    rfl
  · rw [if_neg hij, add_zero]
    rw [List.getD_eq_getElem?_getD, List.getElem?_set_ne hij, List.getD_eq_getElem?_getD]

theorem getD_embedLoop (us : List Nat) (vec : List ℚ) (i j : Nat)
    (hj : j < vec.length) :
    (embedLoop vec i us).getD j 0 = vec.getD j 0 + bucketFrom j i us := by
  induction us generalizing vec i with
  | nil => rw [embedLoop, bucketFrom, add_zero]
  | cons u tl ih =>
    rw [embedLoop, ih (accumUnit vec i u) (i + 1)
      (by rw [accumUnit, List.length_set]; exact hj)]
    rw [getD_accumUnit vec i j u hj, bucketFrom]
    ring

theorem bucketFrom_eq_sum (us : List Nat) (j i : Nat) :
    bucketFrom j i us = Finset.sum (Finset.range us.length)
      (fun k => if (i + k) % DIMS = j then (us.getD k 0 : ℚ) / 65535 else 0) := by
  induction us generalizing i with
  | nil => simp [bucketFrom]
  | cons u tl ih =>
    rw [bucketFrom, ih (i + 1), List.length_cons, Finset.sum_range_succ']
    rw [add_comm]
    congr 1
    exact Finset.sum_congr rfl (fun k _ => by
      rw [show i + (k + 1) = i + 1 + k by omega, List.getD_cons_succ])

/-- C7: for every non-empty, non-whitespace-only text, `embed` returns a
384-entry vector whose entry `j` is the exact sum, over the UTF-16
code-unit positions `k` of the text with `k mod 384 = j`, of
`charCode(k) / 65535` — the arithmetic of the source loop in exact
rationals; in particular `embed "AB"` is `charCode(A)/65535` at entry 0,
`charCode(B)/65535` at entry 1, and 0 everywhere else. -/
theorem embed_accumulation (s : String) (j : Nat)
    (hs : jsTrimEmpty s = false) (hj : j < 384) :
    (embed (.strInput s)).length = 384
    ∧ (embed (.strInput s)).getD j 0 = bucketTotal (utf16Units s) j
    ∧ embed (.strInput "AB") = (65 : ℚ) / 65535 :: (66 : ℚ) / 65535 :: List.replicate 382 0 := by
  have hne : s.isEmpty = false := by
    cases he : s.isEmpty
    · rfl
    · have : s = "" := (String.isEmpty_iff s).mp he
      rw [this] at hs
      exact absurd hs (by decide)
  have hemb : embed (.strInput s) = embedLoop zeroVec 0 (utf16Units s) := by
    rw [embed, if_neg (by rw [hne]; simp), if_neg (by rw [hs]; simp)]
  have hlen : zeroVec.length = 384 := by rw [zeroVec, List.length_replicate]; rfl
  refine ⟨?_, ?_, ?_⟩
  · rw [hemb, length_embedLoop, hlen]
  · rw [hemb, getD_embedLoop _ _ _ _ (by rw [hlen]; exact hj)]
    have hz : zeroVec.getD j 0 = 0 := by
      rw [zeroVec, List.getD_eq_getElem?_getD, List.getElem?_replicate,
        if_pos (show j < DIMS from hj)]
      rfl
    rw [hz, zero_add, bucketFrom_eq_sum, bucketTotal]
    exact Finset.sum_congr rfl (fun k _ => by rw [Nat.zero_add])
  · have hu : utf16Units "AB" = [65, 66] := by decide
    have h1 : "AB".isEmpty = false := by decide
    have h2 : jsTrimEmpty "AB" = false := by decide
    have hzv : zeroVec = (0 : ℚ) :: 0 :: List.replicate 382 0 := rfl
    rw [embed, if_neg (by rw [h1]; simp), if_neg (by rw [h2]; simp), hu, hzv]
    rw [embedLoop, embedLoop, embedLoop]
    simp only [accumUnit, DIMS]
    norm_num

/-- C7 witness: at the text `"AB"` the general entry formula holds at
bucket 0 and the vector has 384 entries. -/
theorem embed_accumulation_ex :
    (embed (.strInput "AB")).getD 0 0 = bucketTotal (utf16Units "AB") 0
    ∧ (embed (.strInput "AB")).length = 384 := by
  have h := embed_accumulation "AB" 0 (by decide) (by decide)
  exact ⟨h.2.1, h.1⟩

end ElizaLivepeer
